import Mathlib

/-!
# License service of `server/service/license/license.go`

A shallow embedding of the license service: the `LicenseService` struct, its
five methods, the two key-checking helpers and the two plan constructors, with
the settings store they call modelled as explicit state.

Conventions of the embedding:

* a Go pointer that may be nil is an `Option`; a Go `error` is an
  `Option Error` (`none` is nil);
* a Go result tuple `(*T, error)` of the service is a pair
  `Option T × Option Error`; a store read is an `Except`, since the store
  returns either a record or an error;
* a method on `*LicenseService` takes the service state and returns its result
  together with the service state after the call (the store the service points
  to is part of that state).
-/

namespace License

/-! ## Errors (`github.com/pkg/errors`) -/

/-- Go error value, identified by its message. -/
structure Error where
  msg : String
deriving DecidableEq, Repr

/-- Go `errors.New`: a fresh error carrying the message. -/
def errors.New (message : String) : Error :=
  ⟨message⟩

/-- Go `errors.Wrap`: nil stays nil, otherwise the message is put in front of
the cause. -/
def errors.Wrap (err : Option Error) (message : String) : Option Error :=
  match err with
  | none => none
  | some e => some ⟨message ++ ": " ++ e.msg⟩

/-! ## Time (`time`, `timestamppb`) -/

/-- Go `time.Time` in UTC: seconds since the Unix epoch and nanoseconds within
the second. -/
structure Time where
  sec : Int
  nsec : Int
deriving DecidableEq, Repr

/-- Days from 1970-01-01 to the given proleptic Gregorian date. -/
def daysFromCivil (year month day : Int) : Int :=
  let y := if month ≤ 2 then year - 1 else year
  let era := y / 400
  let yoe := y - era * 400
  let mp := (month + 9) % 12
  let doy := (153 * mp + 2) / 5 + day - 1
  let doe := yoe * 365 + yoe / 4 - yoe / 100 + doy
  era * 146097 + doe - 719468

/-- Go `time.Date(year, month, day, hour, min, sec, nsec, time.UTC)` for
arguments within their usual ranges. -/
def time.Date (year month day hour min sec nsec : Int) : Time :=
  { sec := daysFromCivil year month day * 86400 + hour * 3600 + min * 60 + sec
    nsec := nsec }

/-- Protobuf `timestamppb.Timestamp`. -/
structure Timestamp where
  Seconds : Int
  Nanos : Int
deriving DecidableEq, Repr

/-- Go `timestamppb.New`: the timestamp of an instant. -/
def timestamppb.New (t : Time) : Timestamp :=
  { Seconds := t.sec, Nanos := t.nsec }

/-! ## API types (`v1pb`) -/

/-- Modelled from the spec: the plan tier enumeration `v1pb.PlanType`, whose
declaration is generated code outside the source file (§3: FREE, PRO,
ENTERPRISE, …). -/
inductive PlanType where
  | PLAN_TYPE_UNSPECIFIED
  | FREE
  | PRO
  | ENTERPRISE
deriving DecidableEq, Repr

/-- Modelled from the spec: the message `v1pb.Subscription`, whose declaration
is generated code outside the source file; the fields are the ones the source
file assigns (§3: plan tier, seat limit, shortcut limit, collection limit,
optional expiry, ordered feature identifiers). -/
structure Subscription where
  Plan : PlanType
  Seats : Int
  ShortcutsLimit : Int
  CollectionsLimit : Int
  ExpiresTime : Option Timestamp
  Features : List String
deriving DecidableEq, Repr

/-- Modelled from the spec: `FeatureType`, a string type declared in another
file of the package (§6: feature identifiers are namespaced dotted strings). -/
abbrev FeatureType := String

/-! ## Settings store (`storepb`, `store`) -/

/-- Modelled from the spec: the message `storepb.WorkspaceGeneralSetting`
(§6: `{licenseKey: string, ...other fields}`); the fields other than the
license key are kept as one list of named values. -/
structure WorkspaceGeneralSetting where
  LicenseKey : String
  Other : List (String × String)
deriving DecidableEq, Repr

/-- Modelled from the spec: the setting keys `storepb.WorkspaceSettingKey`; the
source file names only the GENERAL key. -/
inductive WorkspaceSettingKey where
  | WORKSPACE_SETTING_KEY_UNSPECIFIED
  | WORKSPACE_SETTING_GENERAL
deriving DecidableEq, Repr

/-- Modelled from the spec: the value of a `storepb.WorkspaceSetting`; the
source file builds only the `WorkspaceSetting_General` case. -/
inductive WorkspaceSettingValue where
  | General (General : WorkspaceGeneralSetting)
deriving DecidableEq, Repr

/-- Modelled from the spec: the message `storepb.WorkspaceSetting`, a key with
its value. -/
structure WorkspaceSetting where
  Key : WorkspaceSettingKey
  Value : WorkspaceSettingValue
deriving DecidableEq, Repr

/-- Modelled from the spec: the settings store `store.Store` (§6), an external
collaborator. Its state is the record kept under the GENERAL key, whether a
read fails and with which error, whether a write fails and with which error,
and the list of upsert calls received so far (oldest first). -/
structure Store where
  general : WorkspaceGeneralSetting
  getErr : Option Error
  upsertErr : Option Error
  upsertCalls : List WorkspaceSetting
deriving DecidableEq, Repr

/-- Modelled from the spec: `getWorkspaceGeneralSetting(ctx)` (§6) returns the
record kept under the GENERAL key, or the store's read error; it does not
change the store. -/
def Store.GetWorkspaceGeneralSetting (st : Store) : Except Error WorkspaceGeneralSetting :=
  match st.getErr with
  | some e => Except.error e
  | none => Except.ok st.general

/-- Modelled from the spec: `upsertWorkspaceSetting(ctx, settingKey, value) ->
error` (§6) records the call and, unless the store's write fails, replaces the
record kept under the given key; a failed write leaves the kept record as it
was. The result is the error (nil on success) and the store after the call. -/
def Store.UpsertWorkspaceSetting (st : Store) (upsert : WorkspaceSetting) :
    Option Error × Store :=
  let st1 := { st with upsertCalls := st.upsertCalls ++ [upsert] }
  match st.upsertErr with
  | some e => (some e, st1)
  | none =>
    match upsert.Key, upsert.Value with
    | .WORKSPACE_SETTING_GENERAL, .General g => (none, { st1 with general := g })
    | .WORKSPACE_SETTING_KEY_UNSPECIFIED, _ => (none, st1)

/-! ## The license service -/

/-- Modelled from the spec: `profile.Profile`, the workspace configuration
(§1: out of scope); no method of the service reads it. -/
structure Profile where
  Data : List (String × String)
deriving DecidableEq, Repr

/-- The `LicenseService` struct; `Store` is the state of the store the service
points to. -/
structure LicenseService where
  Profile : Profile
  Store : Store
  cachedSubscription : Option Subscription
deriving DecidableEq, Repr

/-- The `ValidateResult` struct. -/
structure ValidateResult where
  Plan : PlanType
  ExpiresTime : Time
  Trial : Bool
  Seats : Int
  Features : List FeatureType
deriving DecidableEq, Repr

/-- The registered claims embedded in `Claims` (`jwt.RegisteredClaims`), as
listed in §6. -/
structure RegisteredClaims where
  Issuer : String
  Subject : String
  ExpiresAt : Option Time
  NotBefore : Option Time
  IssuedAt : Option Time
deriving DecidableEq, Repr

/-- The `Claims` struct. -/
structure Claims where
  Registered : RegisteredClaims
  Owner : String
  Plan : String
  Trial : Bool
  Seats : Int
  Features : List String
deriving DecidableEq, Repr

/-- The function `getSubscriptionForFreePlan`. -/
def getSubscriptionForFreePlan : Subscription :=
  { Plan := PlanType.FREE
    Seats := 5
    ShortcutsLimit := 100
    CollectionsLimit := 5
    ExpiresTime := none
    Features := [] }

/-- The function `getSubscriptionForEnterprisePlan`. -/
def getSubscriptionForEnterprisePlan : Subscription :=
  let expiresTime := time.Date 2099 12 31 23 59 59 0
  { Plan := PlanType.ENTERPRISE
    Seats := 999999
    ShortcutsLimit := 0
    CollectionsLimit := 0
    ExpiresTime := some (timestamppb.New expiresTime)
    Features :=
      [ "ysh.slash.sso",
        "ysh.slash.advanced-analytics",
        "ysh.slash.unlimited-accounts",
        "ysh.slash.unlimited-shortcuts",
        "ysh.slash.unlimited-collections",
        "ysh.slash.custom-branding" ] }

/-- The function `validateLicenseKey`: it returns an error for every key. -/
def validateLicenseKey (_licenseKey : String) : Option ValidateResult × Option Error :=
  (none, some (errors.New "license validation disabled in enterprise mode"))

/-- The function `parseLicenseKey`: it returns an error for every key. -/
def parseLicenseKey (_licenseKey : String) : Option Claims × Option Error :=
  (none, some (errors.New "license parsing disabled"))

/-- The constructor `NewLicenseService`. -/
def NewLicenseService (profile : Profile) (store : Store) : LicenseService :=
  { Profile := profile
    Store := store
    cachedSubscription := some getSubscriptionForEnterprisePlan }

/-- The method `LoadSubscription`: it caches and returns the enterprise
subscription without reading the store. -/
def LicenseService.LoadSubscription (s : LicenseService) :
    (Option Subscription × Option Error) × LicenseService :=
  let subscription := getSubscriptionForEnterprisePlan
  let s1 := { s with cachedSubscription := some subscription }
  ((some subscription, none), s1)

/-- The method `UpdateLicenseKey`: read the general setting, set its license
key to the empty string, upsert it under the GENERAL key. -/
def LicenseService.UpdateLicenseKey (s : LicenseService) (_licenseKey : String) :
    Option Error × LicenseService :=
  match s.Store.GetWorkspaceGeneralSetting with
  | Except.error err => (errors.Wrap (some err) "failed to get workspace general setting", s)
  | Except.ok workspaceGeneralSetting =>
    let workspaceGeneralSetting1 := { workspaceGeneralSetting with LicenseKey := "" }
    let r := s.Store.UpsertWorkspaceSetting
      { Key := WorkspaceSettingKey.WORKSPACE_SETTING_GENERAL
        Value := WorkspaceSettingValue.General workspaceGeneralSetting1 }
    (errors.Wrap r.1 "failed to upsert workspace setting", { s with Store := r.2 })

/-- The method `UpdateSubscription`: clear the persisted key, then reload. -/
def LicenseService.UpdateSubscription (s : LicenseService) (_licenseKey : String) :
    (Option Subscription × Option Error) × LicenseService :=
  match s.UpdateLicenseKey "" with
  | (some err, s1) => ((none, errors.Wrap (some err) "failed to update license key"), s1)
  | (none, s1) => s1.LoadSubscription

/-- The method `GetSubscription`: the cached pointer, the state untouched. -/
def LicenseService.GetSubscription (s : LicenseService) :
    Option Subscription × LicenseService :=
  (s.cachedSubscription, s)

/-- The method `IsFeatureEnabled`: true for every feature. -/
def LicenseService.IsFeatureEnabled (s : LicenseService) (_feature : FeatureType) :
    Bool × LicenseService :=
  (true, s)

/-! ## Specification-side definitions and sample states -/

/-- The feature query as the specification words it: a membership test against
the feature list of the cached subscription (no cached subscription, no
feature). -/
def isFeatureEnabledSpec (s : LicenseService) (feature : FeatureType) : Bool :=
  match s.GetSubscription.1 with
  | some subscription => subscription.Features.contains feature
  | none => false

/-- The results of `n` consecutive `GetSubscription` calls, oldest first, and
the service state after the last of them. -/
def getSubscriptionTimes : Nat → LicenseService → List (Option Subscription) × LicenseService
  | 0, s => ([], s)
  | n + 1, s =>
    let r := s.GetSubscription
    let rest := getSubscriptionTimes n r.2
    (r.1 :: rest.1, rest.2)

/-- A healthy store holding the given license key next to one other field. -/
def sampleStore (licenseKey : String) : Store :=
  { general := { LicenseKey := licenseKey, Other := [("branding", "acme")] }
    getErr := none
    upsertErr := none
    upsertCalls := [] }

/-- A store holding the given license key whose writes fail. -/
def writeFailingStore (licenseKey : String) : Store :=
  { sampleStore licenseKey with upsertErr := some (errors.New "disk full") }

/-- A store holding the given license key whose reads fail. -/
def readFailingStore (licenseKey : String) : Store :=
  { sampleStore licenseKey with getErr := some (errors.New "connection lost") }

/-- A profile with no entries. -/
def sampleProfile : Profile :=
  { Data := [] }

/-- A service over the given store whose cache holds the free-tier
subscription. -/
def sampleService (store : Store) : LicenseService :=
  { Profile := sampleProfile
    Store := store
    cachedSubscription := some getSubscriptionForFreePlan }

/-- One step in the life of a service: a call of one of its five methods, or a
change made to the settings store from outside the service (its contents, its
recorded calls, or whether its reads and writes fail from now on). -/
inductive Step where
  | LoadSubscription
  | UpdateSubscription (licenseKey : String)
  | UpdateLicenseKey (licenseKey : String)
  | GetSubscription
  | IsFeatureEnabled (feature : FeatureType)
  | storeBecomes (store : Store)
deriving DecidableEq, Repr

/-- The service state after one step. -/
def LicenseService.step (s : LicenseService) : Step → LicenseService
  | Step.LoadSubscription => s.LoadSubscription.2
  | Step.UpdateSubscription licenseKey => (s.UpdateSubscription licenseKey).2
  | Step.UpdateLicenseKey licenseKey => (s.UpdateLicenseKey licenseKey).2
  | Step.GetSubscription => s.GetSubscription.2
  | Step.IsFeatureEnabled feature => (s.IsFeatureEnabled feature).2
  | Step.storeBecomes store => { s with Store := store }

/-- The service state after a sequence of steps, first step first. -/
def LicenseService.run (s : LicenseService) : List Step → LicenseService
  | [] => s
  | c :: cs => (s.step c).run cs

/-! ## Basic facts about the embedding -/

theorem enterprise_ne_free : getSubscriptionForEnterprisePlan ≠ getSubscriptionForFreePlan := by
  decide

theorem enterprise_expiry :
    getSubscriptionForEnterprisePlan.ExpiresTime = some { Seconds := 4102444799, Nanos := 0 } := by
  decide

theorem loadSubscription_eq (s : LicenseService) :
    s.LoadSubscription =
      ((some getSubscriptionForEnterprisePlan, none),
        { s with cachedSubscription := some getSubscriptionForEnterprisePlan }) :=
  rfl

theorem validateLicenseKey_fails (licenseKey : String) :
    (validateLicenseKey licenseKey).1 = none ∧ (validateLicenseKey licenseKey).2 ≠ none := by
  simp [validateLicenseKey]

theorem wrap_eq_none_iff (err : Option Error) (message : String) :
    errors.Wrap err message = none ↔ err = none := by
  cases err <;> simp [errors.Wrap]

theorem updateLicenseKey_read_error (s : LicenseService) (k : String) (e : Error)
    (h : s.Store.getErr = some e) :
    s.UpdateLicenseKey k =
      (errors.Wrap (some e) "failed to get workspace general setting", s) := by
  simp [LicenseService.UpdateLicenseKey, Store.GetWorkspaceGeneralSetting, h]

theorem updateLicenseKey_read_ok (s : LicenseService) (k : String)
    (h : s.Store.getErr = none) :
    s.UpdateLicenseKey k =
      (errors.Wrap
          (s.Store.UpsertWorkspaceSetting
            { Key := WorkspaceSettingKey.WORKSPACE_SETTING_GENERAL
              Value := WorkspaceSettingValue.General
                { s.Store.general with LicenseKey := "" } }).1
          "failed to upsert workspace setting",
        { s with Store :=
            (s.Store.UpsertWorkspaceSetting
              { Key := WorkspaceSettingKey.WORKSPACE_SETTING_GENERAL
                Value := WorkspaceSettingValue.General
                  { s.Store.general with LicenseKey := "" } }).2 }) := by
  simp [LicenseService.UpdateLicenseKey, Store.GetWorkspaceGeneralSetting, h]

theorem upsert_general_ok (st : Store) (g : WorkspaceGeneralSetting)
    (h : st.upsertErr = none) :
    st.UpsertWorkspaceSetting
        { Key := WorkspaceSettingKey.WORKSPACE_SETTING_GENERAL
          Value := WorkspaceSettingValue.General g } =
      (none, { st with
        general := g
        upsertCalls := st.upsertCalls ++
          [{ Key := WorkspaceSettingKey.WORKSPACE_SETTING_GENERAL
             Value := WorkspaceSettingValue.General g }] }) := by
  simp [Store.UpsertWorkspaceSetting, h]

theorem upsert_general_error (st : Store) (g : WorkspaceGeneralSetting) (e : Error)
    (h : st.upsertErr = some e) :
    st.UpsertWorkspaceSetting
        { Key := WorkspaceSettingKey.WORKSPACE_SETTING_GENERAL
          Value := WorkspaceSettingValue.General g } =
      (some e, { st with
        upsertCalls := st.upsertCalls ++
          [{ Key := WorkspaceSettingKey.WORKSPACE_SETTING_GENERAL
             Value := WorkspaceSettingValue.General g }] }) := by
  simp [Store.UpsertWorkspaceSetting, h]

theorem updateLicenseKey_ignores_key (s : LicenseService) (k : String) :
    s.UpdateLicenseKey k = s.UpdateLicenseKey "" :=
  rfl

theorem updateLicenseKey_fails_iff (s : LicenseService) (k : String) :
    (s.UpdateLicenseKey k).1 ≠ none ↔ (s.Store.getErr ≠ none ∨ s.Store.upsertErr ≠ none) := by
  cases hget : s.Store.getErr with
  | some e =>
    rw [updateLicenseKey_read_error s k e hget]
    simp [errors.Wrap]
  | none =>
    rw [updateLicenseKey_read_ok s k hget]
    cases hups : s.Store.upsertErr with
    | some e =>
      rw [upsert_general_error _ _ e hups]
      simp [errors.Wrap]
    | none =>
      rw [upsert_general_ok _ _ hups]
      simp [errors.Wrap]

theorem updateLicenseKey_cache (s : LicenseService) (k : String) :
    (s.UpdateLicenseKey k).2.cachedSubscription = s.cachedSubscription := by
  cases hget : s.Store.getErr with
  | some e => rw [updateLicenseKey_read_error s k e hget]
  | none => rw [updateLicenseKey_read_ok s k hget]

theorem updateSubscription_of_error (s : LicenseService) (k : String) (e : Error)
    (h : (s.UpdateLicenseKey "").1 = some e) :
    s.UpdateSubscription k =
      ((none, errors.Wrap (some e) "failed to update license key"),
        (s.UpdateLicenseKey "").2) := by
  unfold LicenseService.UpdateSubscription
  rcases hr : s.UpdateLicenseKey "" with ⟨r, s1⟩
  rw [hr] at h
  cases h
  rfl

theorem updateSubscription_of_ok (s : LicenseService) (k : String)
    (h : (s.UpdateLicenseKey "").1 = none) :
    s.UpdateSubscription k = (s.UpdateLicenseKey "").2.LoadSubscription := by
  unfold LicenseService.UpdateSubscription
  rcases hr : s.UpdateLicenseKey "" with ⟨r, s1⟩
  rw [hr] at h
  cases h
  rfl

theorem getSubscriptionTimes_eq (n : Nat) (s : LicenseService) :
    getSubscriptionTimes n s = (List.replicate n s.cachedSubscription, s) := by
  induction n with
  | zero => rfl
  | succ n ih =>
    simp [getSubscriptionTimes, LicenseService.GetSubscription, ih, List.replicate_succ]

/-! ## Loading the subscription -/

/-- C1, as stated, fails: on a healthy store whose persisted license key is the
empty string, `LoadSubscription` returns and caches a subscription that is not
the free-tier one, and its feature list is not empty. -/
theorem empty_key_load_is_not_free :
    (sampleService (sampleStore "")).Store.general.LicenseKey = "" ∧
    (sampleService (sampleStore "")).LoadSubscription.1.1 ≠ some getSubscriptionForFreePlan ∧
    (sampleService (sampleStore "")).LoadSubscription.2.cachedSubscription ≠
      some getSubscriptionForFreePlan ∧
    Option.map Subscription.Features (sampleService (sampleStore "")).LoadSubscription.1.1 ≠
      some [] := by
  decide

/-- C1, amended: for every service state over a store whose persisted license
key is the empty string, `LoadSubscription` returns without error, and returns
and caches, the value of `getSubscriptionForEnterprisePlan` (plan ENTERPRISE,
seats 999999, shortcuts limit 0, collections limit 0), whose feature list is
the six "ysh.slash.*" features; the store is not touched. -/
theorem loadSubscription_empty_key (s : LicenseService)
    (_h : s.Store.general.LicenseKey = "") :
    s.LoadSubscription.1 = (some getSubscriptionForEnterprisePlan, none) ∧
    s.LoadSubscription.2.cachedSubscription = some getSubscriptionForEnterprisePlan ∧
    s.LoadSubscription.2.Store = s.Store ∧
    getSubscriptionForEnterprisePlan.Plan = PlanType.ENTERPRISE ∧
    getSubscriptionForEnterprisePlan.Seats = 999999 ∧
    getSubscriptionForEnterprisePlan.ShortcutsLimit = 0 ∧
    getSubscriptionForEnterprisePlan.CollectionsLimit = 0 ∧
    getSubscriptionForEnterprisePlan.Features =
      [ "ysh.slash.sso", "ysh.slash.advanced-analytics", "ysh.slash.unlimited-accounts",
        "ysh.slash.unlimited-shortcuts", "ysh.slash.unlimited-collections",
        "ysh.slash.custom-branding" ] :=
  ⟨rfl, rfl, rfl, rfl, rfl, rfl, rfl, rfl⟩

/-- Witness for C1 amended: the free-tier-cached service over a healthy store
with an empty key. -/
theorem loadSubscription_empty_key_witness :
    (sampleService (sampleStore "")).Store.general.LicenseKey = "" ∧
    (sampleService (sampleStore "")).LoadSubscription.1 =
      (some getSubscriptionForEnterprisePlan, none) ∧
    (sampleService (sampleStore "")).LoadSubscription.2.cachedSubscription =
      some getSubscriptionForEnterprisePlan :=
  ⟨rfl, (loadSubscription_empty_key (sampleService (sampleStore "")) rfl).1,
    (loadSubscription_empty_key (sampleService (sampleStore "")) rfl).2.1⟩

/-! ## Feature queries -/

/-- C2, as stated, fails: in the state right after construction over a store
with no license key, `IsFeatureEnabled "x.y.sso"` is true although "x.y.sso" is
not in the feature list of the cached subscription. -/
theorem isFeatureEnabled_not_membership :
    (sampleStore "").general.LicenseKey = "" ∧
    ((NewLicenseService sampleProfile (sampleStore "")).IsFeatureEnabled "x.y.sso").1 = true ∧
    isFeatureEnabledSpec (NewLicenseService sampleProfile (sampleStore "")) "x.y.sso" = false := by
  decide

/-- C2, amended: for every service state and every feature identifier,
`IsFeatureEnabled` is true and leaves the state as it was, whether or not the
feature is in the cached subscription's feature list (so every listed feature
is enabled, and so is every unlisted one, "x.y.sso" with no key persisted
included). -/
theorem isFeatureEnabled_always (s : LicenseService) (f : FeatureType) :
    s.IsFeatureEnabled f = (true, s) :=
  rfl

/-! ## Fallback on a bad key -/

/-- C3, as stated, fails: with the non-empty key "expired-token" persisted, on
which `validateLicenseKey` returns an error, `LoadSubscription` returns no
error but returns and caches a subscription that is not the free-tier one. -/
theorem bad_key_load_is_not_free :
    (sampleStore "expired-token").general.LicenseKey ≠ "" ∧
    (validateLicenseKey (sampleStore "expired-token").general.LicenseKey).2 ≠ none ∧
    (sampleService (sampleStore "expired-token")).LoadSubscription.1.2 = none ∧
    (sampleService (sampleStore "expired-token")).LoadSubscription.1.1 ≠
      some getSubscriptionForFreePlan ∧
    (sampleService (sampleStore "expired-token")).LoadSubscription.2.cachedSubscription ≠
      some getSubscriptionForFreePlan := by
  decide

/-- C3, amended: for every persisted non-empty license key on which
`validateLicenseKey` returns an error, `LoadSubscription` returns no error, and
the subscription it returns and caches is the enterprise subscription of
`getSubscriptionForEnterprisePlan`. -/
theorem loadSubscription_bad_key (s : LicenseService)
    (_hkey : s.Store.general.LicenseKey ≠ "")
    (_hbad : (validateLicenseKey s.Store.general.LicenseKey).2 ≠ none) :
    s.LoadSubscription.1.2 = none ∧
    s.LoadSubscription.1.1 = some getSubscriptionForEnterprisePlan ∧
    s.LoadSubscription.2.cachedSubscription = some getSubscriptionForEnterprisePlan :=
  ⟨rfl, rfl, rfl⟩

/-- Witness for C3 amended: the key "expired-token". -/
theorem loadSubscription_bad_key_witness :
    (sampleService (sampleStore "expired-token")).Store.general.LicenseKey ≠ "" ∧
    (validateLicenseKey
      (sampleService (sampleStore "expired-token")).Store.general.LicenseKey).2 ≠ none ∧
    (sampleService (sampleStore "expired-token")).LoadSubscription.1.2 = none ∧
    (sampleService (sampleStore "expired-token")).LoadSubscription.1.1 =
      some getSubscriptionForEnterprisePlan ∧
    (sampleService (sampleStore "expired-token")).LoadSubscription.2.cachedSubscription =
      some getSubscriptionForEnterprisePlan :=
  ⟨by decide, by decide,
    loadSubscription_bad_key (sampleService (sampleStore "expired-token"))
      (by decide) (by decide)⟩

/-! ## Persisting the key -/

/-- C4, as stated, fails: on a healthy store, `UpdateLicenseKey "new-key"`
returns without error, and the general setting read back afterwards has the
empty string, not "new-key", as its license key. -/
theorem updateLicenseKey_read_back_not_key :
    (sampleStore "old").getErr = none ∧
    (sampleStore "old").upsertErr = none ∧
    ((sampleService (sampleStore "old")).UpdateLicenseKey "new-key").1 = none ∧
    ((sampleService (sampleStore "old")).UpdateLicenseKey
        "new-key").2.Store.GetWorkspaceGeneralSetting =
      Except.ok { LicenseKey := "", Other := [("branding", "acme")] } ∧
    ({ LicenseKey := "", Other := [("branding", "acme")] } :
      WorkspaceGeneralSetting).LicenseKey ≠ "new-key" :=
  ⟨rfl, rfl, rfl, rfl, by decide⟩

/-- C4, amended: for every license key k and every settings store whose read
and write succeed, `UpdateLicenseKey k` returns without error, and reading the
workspace general setting from the store afterwards yields the record held
before with its license key set to the empty string (equal to k only when k
is empty). -/
theorem updateLicenseKey_clears_key (k : String) (s : LicenseService)
    (hget : s.Store.getErr = none) (hups : s.Store.upsertErr = none) :
    (s.UpdateLicenseKey k).1 = none ∧
    (s.UpdateLicenseKey k).2.Store.GetWorkspaceGeneralSetting =
      Except.ok { s.Store.general with LicenseKey := "" } ∧
    ∀ g, (s.UpdateLicenseKey k).2.Store.GetWorkspaceGeneralSetting = Except.ok g →
      g.LicenseKey = "" := by
  have hread :
      (s.UpdateLicenseKey k).2.Store.GetWorkspaceGeneralSetting =
        Except.ok { s.Store.general with LicenseKey := "" } := by
    rw [updateLicenseKey_read_ok s k hget, upsert_general_ok _ _ hups]
    simp [Store.GetWorkspaceGeneralSetting, hget]
  refine ⟨?_, hread, ?_⟩
  · rw [updateLicenseKey_read_ok s k hget, upsert_general_ok _ _ hups]
    rfl
  · intro g hg
    rw [hread] at hg
    cases hg
    rfl

/-- Witness for C4 amended: a healthy store holding "old", updated with
"new-key". -/
theorem updateLicenseKey_clears_key_witness :
    (sampleService (sampleStore "old")).Store.getErr = none ∧
    (sampleService (sampleStore "old")).Store.upsertErr = none ∧
    ((sampleService (sampleStore "old")).UpdateLicenseKey "new-key").1 = none ∧
    ((sampleService (sampleStore "old")).UpdateLicenseKey
        "new-key").2.Store.GetWorkspaceGeneralSetting =
      Except.ok { (sampleService (sampleStore "old")).Store.general with LicenseKey := "" } :=
  ⟨rfl, rfl,
    (updateLicenseKey_clears_key "new-key" (sampleService (sampleStore "old")) rfl rfl).1,
    (updateLicenseKey_clears_key "new-key" (sampleService (sampleStore "old")) rfl rfl).2.1⟩

/-- C5: for every key k and every store state, when the read succeeds with a
record g, `UpdateLicenseKey k` makes exactly one upsert call, under the GENERAL
key, whose record is g with only the license key changed (to the empty string),
all other fields as read; when the read fails it makes no upsert call; and in
every case the other fields of the stored general setting are the same after
the call as before it. -/
theorem updateLicenseKey_frame (k : String) (s : LicenseService) :
    (∀ g, s.Store.GetWorkspaceGeneralSetting = Except.ok g →
      (s.UpdateLicenseKey k).2.Store.upsertCalls =
          s.Store.upsertCalls ++
            [{ Key := WorkspaceSettingKey.WORKSPACE_SETTING_GENERAL
               Value := WorkspaceSettingValue.General { g with LicenseKey := "" } }] ∧
        ({ g with LicenseKey := "" } : WorkspaceGeneralSetting).Other = g.Other) ∧
    (∀ e, s.Store.GetWorkspaceGeneralSetting = Except.error e →
      (s.UpdateLicenseKey k).2.Store.upsertCalls = s.Store.upsertCalls) ∧
    (s.UpdateLicenseKey k).2.Store.general.Other = s.Store.general.Other := by
  cases hget : s.Store.getErr with
  | some e =>
    rw [updateLicenseKey_read_error s k e hget]
    refine ⟨?_, ?_, rfl⟩
    · intro g hg
      simp [Store.GetWorkspaceGeneralSetting, hget] at hg
    · intro _ _
      rfl
  | none =>
    rw [updateLicenseKey_read_ok s k hget]
    have hread : s.Store.GetWorkspaceGeneralSetting = Except.ok s.Store.general := by
      simp [Store.GetWorkspaceGeneralSetting, hget]
    cases hups : s.Store.upsertErr with
    | some e =>
      rw [upsert_general_error _ _ e hups]
      refine ⟨?_, ?_, rfl⟩
      · intro g hg
        rw [hread] at hg
        cases hg
        exact ⟨rfl, rfl⟩
      · intro e1 he1
        rw [hread] at he1
        cases he1
    | none =>
      rw [upsert_general_ok _ _ hups]
      refine ⟨?_, ?_, rfl⟩
      · intro g hg
        rw [hread] at hg
        cases hg
        exact ⟨rfl, rfl⟩
      · intro e1 he1
        rw [hread] at he1
        cases he1

/-- Witness for C5: a healthy store holding "old" and one other field; the
single upsert carries that other field and the empty key. -/
theorem updateLicenseKey_frame_witness :
    (sampleService (sampleStore "old")).Store.GetWorkspaceGeneralSetting =
      Except.ok { LicenseKey := "old", Other := [("branding", "acme")] } ∧
    ((sampleService (sampleStore "old")).UpdateLicenseKey "new-key").2.Store.upsertCalls =
      [{ Key := WorkspaceSettingKey.WORKSPACE_SETTING_GENERAL
         Value := WorkspaceSettingValue.General
           { LicenseKey := "", Other := [("branding", "acme")] } }] ∧
    ((sampleService (sampleStore "old")).UpdateLicenseKey "new-key").2.Store.general.Other =
      [("branding", "acme")] :=
  ⟨rfl,
    ((updateLicenseKey_frame "new-key" (sampleService (sampleStore "old"))).1
      { LicenseKey := "old", Other := [("branding", "acme")] } rfl).1,
    (updateLicenseKey_frame "new-key" (sampleService (sampleStore "old"))).2.2⟩

/-! ## Updating the subscription -/

/-- C6: for every key k and service state, if the persist step inside
`UpdateSubscription k` fails (the store read or the store upsert returns an
error), then `UpdateSubscription` returns an error and no subscription, the
state it leaves is the one left by the persist step alone (no reload), and the
cached subscription is the same as before the call. -/
theorem updateSubscription_persist_failure (k : String) (s : LicenseService)
    (hfail : s.Store.getErr ≠ none ∨ s.Store.upsertErr ≠ none) :
    (s.UpdateSubscription k).1.1 = none ∧
    (s.UpdateSubscription k).1.2 ≠ none ∧
    (s.UpdateSubscription k).2 = (s.UpdateLicenseKey "").2 ∧
    (s.UpdateSubscription k).2.cachedSubscription = s.cachedSubscription := by
  have herr : (s.UpdateLicenseKey "").1 ≠ none := (updateLicenseKey_fails_iff s "").2 hfail
  obtain ⟨e, he⟩ := Option.ne_none_iff_exists'.1 herr
  rw [updateSubscription_of_error s k e he]
  exact ⟨rfl, by simp [errors.Wrap], rfl, updateLicenseKey_cache s ""⟩

/-- Witness for C6: a store whose writes fail, under a service whose cache
holds the free-tier subscription; the cache is still the free-tier one after
the failed update. -/
theorem updateSubscription_persist_failure_witness :
    ((sampleService (writeFailingStore "old")).Store.getErr ≠ none ∨
      (sampleService (writeFailingStore "old")).Store.upsertErr ≠ none) ∧
    ((sampleService (writeFailingStore "old")).UpdateSubscription "new-key").1.1 = none ∧
    ((sampleService (writeFailingStore "old")).UpdateSubscription "new-key").1.2 ≠ none ∧
    ((sampleService (writeFailingStore "old")).UpdateSubscription
        "new-key").2.cachedSubscription = some getSubscriptionForFreePlan :=
  ⟨Or.inr (by decide),
    (updateSubscription_persist_failure "new-key" (sampleService (writeFailingStore "old"))
      (Or.inr (by decide))).1,
    (updateSubscription_persist_failure "new-key" (sampleService (writeFailingStore "old"))
      (Or.inr (by decide))).2.1,
    (updateSubscription_persist_failure "new-key" (sampleService (writeFailingStore "old"))
      (Or.inr (by decide))).2.2.2⟩

/-- C7: `UpdateSubscription k` is `UpdateLicenseKey k` followed by
`LoadSubscription`: for every key k and state, it returns an error exactly when
`UpdateLicenseKey k` returns one on that state (and then returns no
subscription and leaves the state `UpdateLicenseKey k` leaves), and otherwise
its result and final state (store and cache) are those of `LoadSubscription`
run on the state `UpdateLicenseKey k` leaves. -/
theorem updateSubscription_is_composition (k : String) (s : LicenseService) :
    ((s.UpdateSubscription k).1.2 ≠ none ↔ (s.UpdateLicenseKey k).1 ≠ none) ∧
    ((s.UpdateLicenseKey k).1 ≠ none →
      (s.UpdateSubscription k).1.1 = none ∧
        (s.UpdateSubscription k).2 = (s.UpdateLicenseKey k).2) ∧
    ((s.UpdateLicenseKey k).1 = none →
      s.UpdateSubscription k = (s.UpdateLicenseKey k).2.LoadSubscription) := by
  rw [updateLicenseKey_ignores_key s k]
  cases hr : (s.UpdateLicenseKey "").1 with
  | some e =>
    rw [updateSubscription_of_error s k e hr]
    simp [errors.Wrap]
  | none =>
    rw [updateSubscription_of_ok s k hr]
    simp [LicenseService.LoadSubscription]

/-- Witness for C7: on a healthy store the update succeeds and equals persist
then reload; the store then holds the empty key and the cache the enterprise
subscription. -/
theorem updateSubscription_is_composition_witness :
    ((sampleService (sampleStore "old")).UpdateLicenseKey "new-key").1 = none ∧
    (sampleService (sampleStore "old")).UpdateSubscription "new-key" =
      ((sampleService (sampleStore "old")).UpdateLicenseKey "new-key").2.LoadSubscription ∧
    ((sampleService (sampleStore "old")).UpdateSubscription "new-key").1.2 = none :=
  ⟨rfl,
    (updateSubscription_is_composition "new-key" (sampleService (sampleStore "old"))).2.2 rfl,
    rfl⟩

/-! ## Reading the cache -/

/-- C8: `GetSubscription` is a pure read of the cache: it leaves the service
state as it was, any number n of consecutive calls return n equal values (the
value of a single call) and leave the state as it was, and after
`LoadSubscription` the n following calls all return the subscription that
`LoadSubscription` returned. -/
theorem getSubscription_pure_read (s : LicenseService) (n : Nat) :
    s.GetSubscription.2 = s ∧
    getSubscriptionTimes n s = (List.replicate n s.GetSubscription.1, s) ∧
    (getSubscriptionTimes n s.LoadSubscription.2).1 =
      List.replicate n s.LoadSubscription.1.1 := by
  refine ⟨rfl, getSubscriptionTimes_eq n s, ?_⟩
  rw [getSubscriptionTimes_eq]
  rfl

/-! ## Errors of the persist step -/

/-- C9: `UpdateLicenseKey` returns an error if and only if the store read fails
or the store write fails; when both succeed it returns nil; and when the read
fails the whole state, the store with its list of received upsert calls
included, is unchanged (no write is attempted). -/
theorem updateLicenseKey_error_iff_store_fails (k : String) (s : LicenseService) :
    ((s.UpdateLicenseKey k).1 ≠ none ↔
      (s.Store.getErr ≠ none ∨ s.Store.upsertErr ≠ none)) ∧
    (s.Store.getErr = none → s.Store.upsertErr = none → (s.UpdateLicenseKey k).1 = none) ∧
    (s.Store.getErr ≠ none →
      (s.UpdateLicenseKey k).2 = s ∧
        (s.UpdateLicenseKey k).2.Store.upsertCalls = s.Store.upsertCalls) := by
  refine ⟨updateLicenseKey_fails_iff s k, ?_, ?_⟩
  · intro hget hups
    by_contra hne
    rcases (updateLicenseKey_fails_iff s k).1 hne with h | h
    · exact h hget
    · exact h hups
  · intro hget
    obtain ⟨e, he⟩ := Option.ne_none_iff_exists'.1 hget
    rw [updateLicenseKey_read_error s k e he]
    exact ⟨rfl, rfl⟩

/-- Witness for C9: a healthy store (nil returned) and a store whose reads
fail (error returned, state unchanged). -/
theorem updateLicenseKey_error_iff_store_fails_witness :
    (sampleService (sampleStore "old")).Store.getErr = none ∧
    (sampleService (sampleStore "old")).Store.upsertErr = none ∧
    ((sampleService (sampleStore "old")).UpdateLicenseKey "new-key").1 = none ∧
    (sampleService (readFailingStore "old")).Store.getErr ≠ none ∧
    ((sampleService (readFailingStore "old")).UpdateLicenseKey "new-key").2 =
      sampleService (readFailingStore "old") ∧
    ((sampleService (readFailingStore "old")).UpdateLicenseKey "new-key").1 ≠ none :=
  ⟨rfl, rfl,
    (updateLicenseKey_error_iff_store_fails "new-key"
      (sampleService (sampleStore "old"))).2.1 rfl rfl,
    by decide,
    ((updateLicenseKey_error_iff_store_fails "new-key"
      (sampleService (readFailingStore "old"))).2.2 (by decide)).1,
    (updateLicenseKey_error_iff_store_fails "new-key"
      (sampleService (readFailingStore "old"))).1.2 (Or.inl (by decide))⟩

/-! ## Construction -/

/-- C10, as stated, fails: over a healthy store with an empty license key, and
over one with the key "expired-token" on which `validateLicenseKey` fails,
the subscription `GetSubscription` returns right after `NewLicenseService` is
not the free-tier one. -/
theorem newLicenseService_not_free :
    (sampleStore "").general.LicenseKey = "" ∧
    (NewLicenseService sampleProfile (sampleStore "")).GetSubscription.1 ≠
      some getSubscriptionForFreePlan ∧
    (validateLicenseKey (sampleStore "expired-token").general.LicenseKey).2 ≠ none ∧
    (NewLicenseService sampleProfile (sampleStore "expired-token")).GetSubscription.1 ≠
      some getSubscriptionForFreePlan := by
  decide

/-- C10, amended: for every profile and every store in which no valid license
key is persisted (empty key, or a key on which `validateLicenseKey` fails),
`NewLicenseService` yields a service over that store, and the subscription
returned by `GetSubscription` immediately after construction is the enterprise
subscription of `getSubscriptionForEnterprisePlan`. -/
theorem newLicenseService_enterprise (profile : Profile) (store : Store)
    (_h : store.general.LicenseKey = "" ∨
      (validateLicenseKey store.general.LicenseKey).2 ≠ none) :
    (NewLicenseService profile store).Store = store ∧
    (NewLicenseService profile store).GetSubscription.1 =
      some getSubscriptionForEnterprisePlan ∧
    (NewLicenseService profile store).GetSubscription.2 = NewLicenseService profile store :=
  ⟨rfl, rfl, rfl⟩

/-- Witness for C10 amended: a healthy store with an empty license key. -/
theorem newLicenseService_enterprise_witness :
    ((sampleStore "").general.LicenseKey = "" ∨
      (validateLicenseKey (sampleStore "").general.LicenseKey).2 ≠ none) ∧
    (NewLicenseService sampleProfile (sampleStore "")).GetSubscription.1 =
      some getSubscriptionForEnterprisePlan :=
  ⟨Or.inl rfl, (newLicenseService_enterprise sampleProfile (sampleStore "") (Or.inl rfl)).2.1⟩

/-! ## The cache under the persist step -/

/-- C11: `UpdateLicenseKey` does not reload the cache: for every key k and
every service state (whatever the store holds, and whether its read or write
fails or not), `GetSubscription` after `UpdateLicenseKey k` returns what it
returned before, and this holds both when the update fails and when it
succeeds. -/
theorem updateLicenseKey_keeps_cache (k : String) (s : LicenseService) :
    (s.UpdateLicenseKey k).2.GetSubscription.1 = s.GetSubscription.1 ∧
    (s.UpdateLicenseKey k).2.cachedSubscription = s.cachedSubscription ∧
    (s.UpdateLicenseKey k).2.Profile = s.Profile := by
  cases hget : s.Store.getErr with
  | some e =>
    rw [updateLicenseKey_read_error s k e hget]
    exact ⟨rfl, rfl, rfl⟩
  | none =>
    rw [updateLicenseKey_read_ok s k hget]
    exact ⟨rfl, rfl, rfl⟩

/-! ## The key-checking helpers -/

/-- C12, as stated, fails: the empty key and the non-empty malformed key
"not-a-token" get the same outcome from `validateLicenseKey`, and the same
outcome from `parseLicenseKey`; the outcome on the empty key is an error like
any other. -/
theorem empty_key_not_distinguished :
    ("not-a-token" : String) ≠ "" ∧
    (validateLicenseKey "not-a-token").2 ≠ none ∧
    (parseLicenseKey "not-a-token").2 ≠ none ∧
    validateLicenseKey "" = validateLicenseKey "not-a-token" ∧
    parseLicenseKey "" = parseLicenseKey "not-a-token" := by
  decide

/-- C12, amended: the key verifier does not tell an absent key from a bad one:
on every license key, empty or not, `validateLicenseKey` returns no result and
the error "license validation disabled in enterprise mode", and
`parseLicenseKey` returns no claims and the error "license parsing disabled";
so the outcome on any key is the outcome on the empty key. -/
theorem key_helpers_constant (k : String) :
    validateLicenseKey k =
      (none, some (errors.New "license validation disabled in enterprise mode")) ∧
    parseLicenseKey k = (none, some (errors.New "license parsing disabled")) ∧
    validateLicenseKey k = validateLicenseKey "" ∧
    parseLicenseKey k = parseLicenseKey "" :=
  ⟨rfl, rfl, rfl, rfl⟩

/-! ## The cache in every reachable state -/

theorem step_keeps_enterprise (s : LicenseService) (c : Step)
    (h : s.cachedSubscription = some getSubscriptionForEnterprisePlan) :
    (s.step c).cachedSubscription = some getSubscriptionForEnterprisePlan := by
  cases c with
  | LoadSubscription => rfl
  | UpdateSubscription k =>
    show (s.UpdateSubscription k).2.cachedSubscription = _
    cases hr : (s.UpdateLicenseKey "").1 with
    | some e =>
      rw [updateSubscription_of_error s k e hr]
      exact (updateLicenseKey_cache s "").trans h
    | none =>
      rw [updateSubscription_of_ok s k hr]
      rfl
  | UpdateLicenseKey k => exact (updateLicenseKey_cache s k).trans h
  | GetSubscription => exact h
  | IsFeatureEnabled f => exact h
  | storeBecomes store => exact h

theorem run_keeps_enterprise (steps : List Step) (s : LicenseService)
    (h : s.cachedSubscription = some getSubscriptionForEnterprisePlan) :
    (s.run steps).cachedSubscription = some getSubscriptionForEnterprisePlan := by
  induction steps generalizing s with
  | nil => exact h
  | cons c cs ih => exact ih (s.step c) (step_keeps_enterprise s c h)

/-- C13: in every state reached from `NewLicenseService` (over any profile and
any store) by any sequence of `LoadSubscription`, `UpdateSubscription`,
`UpdateLicenseKey`, `GetSubscription` and `IsFeatureEnabled` calls, with the
store changing in any way between them (contents and read or write failures),
the cached subscription, which is what `GetSubscription` returns, is the value
of `getSubscriptionForEnterprisePlan`: plan ENTERPRISE, seats 999999, shortcuts
limit 0, collections limit 0, expiry 2099-12-31T23:59:59Z (4102444799 seconds
after the epoch) and the six "ysh.slash.*" features; and `LoadSubscription`
called there returns that subscription and no error. -/
theorem reachable_cache_is_enterprise (profile : Profile) (store : Store)
    (steps : List Step) :
    ((NewLicenseService profile store).run steps).cachedSubscription =
      some getSubscriptionForEnterprisePlan ∧
    ((NewLicenseService profile store).run steps).GetSubscription.1 =
      some getSubscriptionForEnterprisePlan ∧
    ((NewLicenseService profile store).run steps).LoadSubscription.1 =
      (some getSubscriptionForEnterprisePlan, none) ∧
    getSubscriptionForEnterprisePlan =
      { Plan := PlanType.ENTERPRISE
        Seats := 999999
        ShortcutsLimit := 0
        CollectionsLimit := 0
        ExpiresTime := some { Seconds := 4102444799, Nanos := 0 }
        Features :=
          [ "ysh.slash.sso", "ysh.slash.advanced-analytics", "ysh.slash.unlimited-accounts",
            "ysh.slash.unlimited-shortcuts", "ysh.slash.unlimited-collections",
            "ysh.slash.custom-branding" ] } ∧
    timestamppb.New (time.Date 2099 12 31 23 59 59 0) =
      { Seconds := 4102444799, Nanos := 0 } :=
  ⟨run_keeps_enterprise steps _ rfl, run_keeps_enterprise steps _ rfl, rfl,
    by decide, by decide⟩

/-! ## The key argument -/

theorem updateLicenseKey_ok_key (s : LicenseService) (k : String)
    (h : (s.UpdateLicenseKey k).1 = none) :
    (s.UpdateLicenseKey k).2.Store.general.LicenseKey = "" := by
  have hno : ¬ (s.Store.getErr ≠ none ∨ s.Store.upsertErr ≠ none) := fun hf =>
    (updateLicenseKey_fails_iff s k).2 hf h
  have hget : s.Store.getErr = none := by
    by_contra hc
    exact hno (Or.inl hc)
  have hups : s.Store.upsertErr = none := by
    by_contra hc
    exact hno (Or.inr hc)
  rw [updateLicenseKey_read_ok s k hget, upsert_general_ok _ _ hups]

theorem updateSubscription_ok_key (s : LicenseService) (k : String)
    (h : (s.UpdateSubscription k).1.2 = none) :
    (s.UpdateSubscription k).2.Store.general.LicenseKey = "" := by
  cases hr : (s.UpdateLicenseKey "").1 with
  | some e =>
    rw [updateSubscription_of_error s k e hr] at h
    simp [errors.Wrap] at h
  | none =>
    rw [updateSubscription_of_ok s k hr]
    exact updateLicenseKey_ok_key s "" hr

/-- C14: the license-key argument has no influence: for any two keys k1 and k2
and the same starting state, `UpdateLicenseKey k1` and `UpdateLicenseKey k2`
give the same result and the same state after (store and cache), so do
`UpdateSubscription k1` and `UpdateSubscription k2`, and whenever either method
succeeds the license key kept in the store is the empty string. -/
theorem key_argument_irrelevant (k1 k2 : String) (s : LicenseService) :
    s.UpdateLicenseKey k1 = s.UpdateLicenseKey k2 ∧
    s.UpdateSubscription k1 = s.UpdateSubscription k2 ∧
    ((s.UpdateLicenseKey k1).1 = none →
      (s.UpdateLicenseKey k1).2.Store.general.LicenseKey = "") ∧
    ((s.UpdateSubscription k1).1.2 = none →
      (s.UpdateSubscription k1).2.Store.general.LicenseKey = "") :=
  ⟨rfl, rfl, updateLicenseKey_ok_key s k1, updateSubscription_ok_key s k1⟩

/-- Witness for C14: on a healthy store holding "old", both methods succeed
with the key "new-key" and the stored key is empty afterwards. -/
theorem key_argument_irrelevant_witness :
    ((sampleService (sampleStore "old")).UpdateLicenseKey "new-key").1 = none ∧
    ((sampleService (sampleStore "old")).UpdateLicenseKey
      "new-key").2.Store.general.LicenseKey = "" ∧
    ((sampleService (sampleStore "old")).UpdateSubscription "new-key").1.2 = none ∧
    ((sampleService (sampleStore "old")).UpdateSubscription
      "new-key").2.Store.general.LicenseKey = "" ∧
    (sampleService (sampleStore "old")).UpdateSubscription "new-key" =
      (sampleService (sampleStore "old")).UpdateSubscription "other-key" :=
  ⟨rfl,
    (key_argument_irrelevant "new-key" "other-key"
      (sampleService (sampleStore "old"))).2.2.1 rfl,
    rfl,
    (key_argument_irrelevant "new-key" "other-key"
      (sampleService (sampleStore "old"))).2.2.2 rfl,
    (key_argument_irrelevant "new-key" "other-key"
      (sampleService (sampleStore "old"))).2.1⟩

end License
